import Mathlib

/-!
Shallow embedding of the transcription-to-protocol pipeline of
`telegram_voice_to_text_bot` (files `src/protocol_generator.py` and
`src/speech_recognition_engine.py`), with theorems checking the
specification's claims about it.

Python-level effects are made explicit: every operation that can raise is
modelled as an `Except PyExn` value supplied through an environment record,
and `try/except` blocks are translated into pattern matches on those values.
Strings are Lean `String`s (sequences of Unicode code points, as in Python 3),
so `len`/slicing agree with `String.length`/char-list operations.
-/

/-- Python exception values, abstracted to the classes this code can raise
or catch. -/
inductive PyExn where
  | requestException
  | jsonError
  | keyError
  | osError
  | runtimeError
  | unboundLocalError
  deriving DecidableEq

namespace PyRe

/-!
Hand-rolled matchers for the two regular expressions of
`ProtocolGenerator._basic_protocol_formatting`.  Python's `re.search` scans
start positions left to right and, at each position, tries the alternation
branches in written order; counted groups are greedy with backtracking.
Where backtracking provably cannot change the outcome (a skipped character
could never satisfy the next atom), the matchers use maximal munch.
Character classes are restricted to ASCII plus the Cyrillic block, which
covers every string this development evaluates.
-/

/-- Python `\d`, restricted to ASCII digits. -/
def isDigitCh (c : Char) : Bool := c.isDigit

/-- Python `\s` (the six ASCII whitespace characters). -/
def isSpaceCh (c : Char) : Bool :=
  c = ' ' || c = '\t' || c = '\n' || c = '\r' || c = '\x0b' || c = '\x0c'

/-- The Unicode Cyrillic block U+0400–U+04FF. -/
def isCyrillicCh (c : Char) : Bool :=
  decide (0x400 ≤ c.toNat) && decide (c.toNat ≤ 0x4FF)

/-- Python `\w` over ASCII alphanumerics, underscore and Cyrillic letters. -/
def isWordCh (c : Char) : Bool :=
  c.isAlphanum || c = '_' || isCyrillicCh c

/-- `\s+\w+` anchored at the head of the list; returns the matched run.
Both atoms are final-position greedy: whitespace is never a word character,
so no backtracking across the boundary can occur. -/
def spaceThenWord (cs : List Char) : Option (List Char) :=
  let sp := cs.takeWhile isSpaceCh
  let rest := cs.drop sp.length
  let w := rest.takeWhile isWordCh
  if sp.isEmpty then none
  else if w.isEmpty then none
  else some (sp ++ w)

/-- `\d{1,2}\s+\w+` anchored at the head of the list (the "day month-name"
branch of the date regex), greedy on the digit counter with backtracking. -/
def matchDayMonth (cs : List Char) : Option (List Char) :=
  match cs with
  | [] => none
  | c1 :: rest =>
    if isDigitCh c1 then
      match rest with
      | [] => none
      | c2 :: rest2 =>
        if isDigitCh c2 then
          match spaceThenWord rest2 with
          | some m => some (c1 :: c2 :: m)
          | none => (spaceThenWord rest).map (fun m => c1 :: m)
        else (spaceThenWord rest).map (fun m => c1 :: m)
    else none

/-- `\d{1,2}` anchored at the head, returning the digits and the remainder.
Greedy; the atom that follows it in the pattern is a literal dot, which a
given-back digit could never satisfy, so no backtracking is needed. -/
def digitsOneTwo (cs : List Char) : Option (List Char × List Char) :=
  match cs with
  | [] => none
  | c1 :: rest =>
    if isDigitCh c1 then
      match rest with
      | [] => some ([c1], [])
      | c2 :: rest2 =>
        if isDigitCh c2 then some ([c1, c2], rest2) else some ([c1], rest)
    else none

/-- `\d{2,4}` anchored at the head (final atom of the pattern, so greedy
maximal munch is exact). -/
def digitsTwoFour (cs : List Char) : Option (List Char) :=
  let ds := (cs.takeWhile isDigitCh).take 4
  if 2 ≤ ds.length then some ds else none

/-- `\d{1,2}\.\d{1,2}\.\d{2,4}` anchored at the head (the "d.m.yy(yy)"
branch of the date regex). -/
def matchNumericDate (cs : List Char) : Option (List Char) := do
  let (d1, r1) ← digitsOneTwo cs
  match r1 with
  | '.' :: r2 =>
    let (d2, r3) ← digitsOneTwo r2
    match r3 with
    | '.' :: r4 =>
      let d3 ← digitsTwoFour r4
      some (d1 ++ '.' :: d2 ++ '.' :: d3)
    | _ => none
  | _ => none

/-- `re.search(r'\d{1,2}\s+\w+|\d{1,2}\.\d{1,2}\.\d{2,4}', s)`: leftmost
start position wins, and at a given position the left alternative is
preferred. -/
def searchDate : List Char → Option (List Char)
  | [] => none
  | c :: cs =>
    match matchDayMonth (c :: cs) with
    | some m => some m
    | none =>
      match matchNumericDate (c :: cs) with
      | some m => some m
      | none => searchDate cs

/-- String-level wrapper for the date search. -/
def firstDateMatch (s : String) : Option String :=
  (searchDate s.data).map (fun cs => String.mk cs)

end PyRe

namespace PyRe

/-- Lower-casing over ASCII and the Cyrillic letters, the alphabets these
strings use; implements the case folding behind `re.IGNORECASE`. -/
def ruLower (c : Char) : Char :=
  if decide (0x410 ≤ c.toNat) && decide (c.toNat ≤ 0x42F) then
    Char.ofNat (c.toNat + 0x20)
  else if c = 'Ё' then 'ё'
  else c.toLower

/-- Case-insensitive character comparison for `re.IGNORECASE`. -/
def ciEq (a b : Char) : Bool := ruLower a = ruLower b

/-- Match a literal (the pattern side) case-insensitively against the head
of the input; returns the remainder on success. -/
def matchLit : List Char → List Char → Option (List Char)
  | [], cs => some cs
  | _ :: _, [] => none
  | l :: ls, c :: cs => if ciEq l c then matchLit ls cs else none

/-- The class `[а-я]` under `re.IGNORECASE`: U+0430–U+044F plus the
uppercase range U+0410–U+042F ('ё'/'Ё' is outside `а-я`). -/
def isRuClassCh (c : Char) : Bool :=
  (decide (0x430 ≤ c.toNat) && decide (c.toNat ≤ 0x44F)) ||
  (decide (0x410 ≤ c.toNat) && decide (c.toNat ≤ 0x42F))

/-- `\s+([^\.]+)` anchored at the head: returns the capture of group 2 of
the topic regex.  Both runs are final-position greedy: a given-back
whitespace character could never start `[^\.]+`'s preceding context, and
nothing follows the capture. -/
def spaceThenClause (cs : List Char) : Option (List Char) :=
  let sp := cs.takeWhile isSpaceCh
  let rest := cs.drop sp.length
  let body := rest.takeWhile (fun c => c ≠ '.')
  if sp.isEmpty then none
  else if body.isEmpty then none
  else some body

/-- `(?:по|о|об|с)\s+([^\.]+)` anchored at the head, trying the
alternatives in written order and backtracking into the next alternative
when the rest of the pattern fails (this is how `о` yields to `об`). -/
def prepThenClause (cs : List Char) : Option (List Char) :=
  (matchLit ['п', 'о'] cs >>= spaceThenClause) <|>
  (matchLit ['о'] cs >>= spaceThenClause) <|>
  (matchLit ['о', 'б'] cs >>= spaceThenClause) <|>
  (matchLit ['с'] cs >>= spaceThenClause)

/-- One stem alternative of group 1 — stem then `[а-я]+` then
`\s+(?:по|о|об|с)\s+([^\.]+)` — anchored at the head; returns group 2.
`[а-я]+` and `\s+` are maximal munch: neither a letter nor a whitespace
character could satisfy the atom that follows them. -/
def stemTopicAt (stem : List Char) (cs : List Char) : Option (List Char) := do
  let afterStem ← matchLit stem cs
  let letters := afterStem.takeWhile isRuClassCh
  if letters.isEmpty then none
  else
    let afterLetters := afterStem.drop letters.length
    let sp := afterLetters.takeWhile isSpaceCh
    if sp.isEmpty then none
    else prepThenClause (afterLetters.drop sp.length)

/-- Group-1 alternation of the topic regex at one start position, in
written order. -/
def matchTopicAt (cs : List Char) : Option (List Char) :=
  stemTopicAt ['в', 'с', 'т', 'р', 'е', 'ч'] cs <|>
  stemTopicAt ['с', 'о', 'в', 'е', 'щ', 'а', 'н', 'и'] cs <|>
  stemTopicAt ['о', 'б', 'с', 'у', 'ж', 'д', 'е', 'н', 'и'] cs

/-- `re.search` of the topic regex
`(встреч[а-я]+|совещани[а-я]+|обсуждени[а-я]+)\s+(?:по|о|об|с)\s+([^\.]+)`
with `re.IGNORECASE`; returns the group-2 capture of the leftmost match. -/
def searchTopic : List Char → Option (List Char)
  | [] => none
  | c :: cs =>
    match matchTopicAt (c :: cs) with
    | some m => some m
    | none => searchTopic cs

/-- String-level wrapper for the topic search. -/
def firstTopicMatch (s : String) : Option String :=
  (searchTopic s.data).map (fun cs => String.mk cs)

end PyRe

namespace PyStr

/-- Python `str.split('.')`: split on every `'.'`, keeping empty fragments
(structural analogue of `String.splitOn "."` that the kernel can reduce). -/
def splitDot : List Char → List (List Char)
  | [] => [[]]
  | c :: cs =>
    if c = '.' then [] :: splitDot cs
    else
      match splitDot cs with
      | h :: t => (c :: h) :: t
      | [] => [[c]]

/-- Python `str.strip()` over the whitespace characters these strings use. -/
def pyStrip (cs : List Char) : List Char :=
  ((cs.dropWhile PyRe.isSpaceCh).reverse.dropWhile PyRe.isSpaceCh).reverse

/-- String-level `str.strip()`. -/
def strip (s : String) : String := String.mk (pyStrip s.data)

/-- Fueled scanner behind `replace`; the fuel (the input length) dominates
the number of steps because each step consumes at least one character. -/
def replaceAux (pat rep : List Char) : Nat → List Char → List Char
  | 0, cs => cs
  | _ + 1, [] => []
  | n + 1, c :: cs =>
    if pat.isPrefixOf (c :: cs) then
      rep ++ replaceAux pat rep n ((c :: cs).drop pat.length)
    else c :: replaceAux pat rep n cs

/-- Python `str.replace(pat, rep)` for a non-empty pattern: rewrite every
non-overlapping occurrence, scanning left to right. -/
def replace (s pat rep : String) : String :=
  String.mk (replaceAux pat.data rep.data s.data.length s.data)

end PyStr

namespace ProtocolGenerator

/-!
Embedding of `ProtocolGenerator._basic_protocol_formatting`.  The two
`datetime.now().strftime("%d.%m.%Y")` calls (date default and footer) are
separate clock reads and are modelled by the parameters `nowDate` and
`nowFooter`.
-/

/-- `meeting_date` of `_basic_protocol_formatting` (lines 148–152): the
leftmost match of the date regex, else the current date. -/
def meeting_date (transcription nowDate : String) : String :=
  match PyRe.firstDateMatch transcription with
  | some m => m
  | none => nowDate

/-- `topic` of `_basic_protocol_formatting` (lines 155–159): group 2 of the
leftmost topic-regex match, stripped, else the fixed default. -/
def topic (transcription : String) : String :=
  match PyRe.searchTopic transcription.data with
  | some m => String.mk (PyStr.pyStrip m)
  | none => "Обсуждение проекта"

/-- `lines` of `_basic_protocol_formatting` (line 162): split the
transcription on `'.'`, strip each fragment, keep those whose stripped
length exceeds 10. -/
def extracted_lines (transcription : String) : List String :=
  (PyStr.splitDot transcription.data).filterMap (fun l =>
    let s := PyStr.pyStrip l
    if 10 < s.length then some (String.mk s) else none)

/-- The `enumerate(lines[:5], 1)` loop of lines 163–165: number a list of
fragments starting from `k`, appending a period. -/
def numberFragments : Nat → List String → List String
  | _, [] => []
  | k, l :: ls => (Nat.repr k ++ ". " ++ l ++ ".") :: numberFragments (k + 1) ls

/-- `questions` of `_basic_protocol_formatting`: the first five extracted
fragments, numbered from 1. -/
def questions (transcription : String) : List String :=
  numberFragments 1 ((extracted_lines transcription).take 5)

/-- The fixed decisions block of the fallback protocol (lines 182–184). -/
def decisionsBlock : String :=
  "1. Подготовить документацию по обсуждаемым вопросам\n" ++
  "2. Согласовать сроки выполнения задач\n" ++
  "3. Назначить ответственных за реализацию"

/-- `ProtocolGenerator._basic_protocol_formatting` (lines 137–188): the
deterministic fallback formatter, assembling the f-string of lines
168–187. -/
def basic_protocol_formatting (transcription nowDate nowFooter : String) : String :=
  "# Протокол встречи от " ++ meeting_date transcription nowDate ++
  "\n\n## Тема: " ++ topic transcription ++
  "\n\n## Повестка совещания:\n\n" ++
  String.intercalate "\n" (questions transcription) ++
  "\n\n## Содержание обсуждения:\n\n" ++ transcription ++
  "\n\n## Решения и задачи:\n\n" ++ decisionsBlock ++
  "\n\nДата составления протокола: " ++ nowFooter ++ "\n"

end ProtocolGenerator

namespace ProtocolGenerator

/-!
Embedding of `ProtocolGenerator.generate_protocol_text` (lines 100–135).
The single `requests.post` call and the subsequent `response.json()` are
the only effects; their combined outcome is a `PostOutcome`.
-/

/-- Outcome of `requests.post(...)` followed by `response.json()`:
either a response with its status code and the `"response"` field of its
JSON body (`Except.error` when `response.json()` raises, `Option` for the
field's presence), or a raised exception (timeout, connection failure). -/
inductive PostOutcome where
  | resp (status : Nat) (responseField : Except Unit (Option String))
  | exn

/-- Whether the post returned with HTTP status 200. -/
def isHttp200 : PostOutcome → Bool
  | PostOutcome.resp status _ => status == 200
  | PostOutcome.exn => false

/-- The `try` body of `generate_protocol_text` (lines 110–131): on 200,
`result.get("response", "").strip()`; on any other status, the basic
formatter; a raised exception propagates to the `except`. -/
def generate_body (po : PostOutcome) (transcription nowDate nowFooter : String) :
    Except PyExn String :=
  match po with
  | PostOutcome.exn => Except.error PyExn.requestException
  | PostOutcome.resp status json =>
    if status == 200 then
      match json with
      | Except.error _ => Except.error PyExn.jsonError
      | Except.ok r => Except.ok (PyStr.strip (r.getD ""))
    else
      Except.ok (basic_protocol_formatting transcription nowDate nowFooter)

/-- `ProtocolGenerator.generate_protocol_text` (lines 100–135): the `try`
body with its `except Exception` handler, which falls back to the basic
formatter. -/
def generate_protocol_text (po : PostOutcome) (transcription nowDate nowFooter : String) :
    Except PyExn String :=
  match generate_body po transcription nowDate nowFooter with
  | Except.ok s => Except.ok s
  | Except.error _ =>
    Except.ok (basic_protocol_formatting transcription nowDate nowFooter)

/-- JSON scalar values occurring in the request payload. -/
inductive JsonVal where
  | s (v : String)
  | b (v : Bool)
  deriving DecidableEq

/-- An outgoing HTTP request as issued by `requests.post(url, json=...,
timeout=...)`. -/
structure HttpPost where
  method : String
  url : String
  timeoutSecs : Nat
  body : List (String × JsonVal)
  deriving DecidableEq

/-- The `payload` dict of lines 114–118, in insertion order. -/
def generate_payload (model prompt : String) : List (String × JsonVal) :=
  [("model", JsonVal.s model), ("prompt", JsonVal.s prompt),
   ("stream", JsonVal.b false)]

/-- The request issued at lines 120–124; `prompt` stands for
`prompt_template.format(transcription=transcription)`. -/
def generate_request (ollamaUrl model prompt : String) : HttpPost :=
  { method := "POST"
    url := ollamaUrl ++ "/api/generate"
    timeoutSecs := 60
    body := generate_payload model prompt }

end ProtocolGenerator

namespace SpeechRecognitionEngine

/-- Format metadata of the audio stored at a path: channel count, frame
rate, sample width in bytes, and `wave`'s compression type. -/
structure AudioClip where
  channels : Nat
  rate : Nat
  sampwidth : Nat
  comptype : String
  deriving DecidableEq

/-- `audio_path.lower().endswith('.wav')` (lines 69 and 130); lower-casing
covers ASCII and Cyrillic, the alphabets these paths use. -/
def isWavPath (p : String) : Bool :=
  List.isSuffixOf ['.', 'w', 'a', 'v'] (p.data.map PyRe.ruLower)

/-- The fixed string both engines return from their `except` handlers
(lines 81 and 162). -/
def recognitionFailureSentinel : String := "Ошибка распознавания речи."

/-- Effect outcomes of one `WhisperEngine.recognize_speech` call:
the pydub decode/export (runs only for non-`.wav` paths) and the
`model.transcribe` call, whose result dict may lack the `"text"` key. -/
structure WhisperCallEnv where
  convertOutcome : Except PyExn Unit
  transcribeOutcome : Except PyExn (Option String)

namespace WhisperEngine

/-- The `try` body of `WhisperEngine.recognize_speech` (lines 67–78):
convert to WAV when the extension is not `.wav`, transcribe, index the
result dict at `"text"` (a missing key raises `KeyError`), strip. -/
def recognize_speech_body (env : WhisperCallEnv) (audioPath : String) :
    Except PyExn String :=
  match (if isWavPath audioPath then Except.ok () else env.convertOutcome) with
  | Except.error e => Except.error e
  | Except.ok _ =>
    match env.transcribeOutcome with
    | Except.error e => Except.error e
    | Except.ok none => Except.error PyExn.keyError
    | Except.ok (some text) => Except.ok (PyStr.strip text)

/-- `WhisperEngine.recognize_speech` (lines 57–81): the `try` body with
its `except Exception` handler returning the failure sentinel. -/
def recognize_speech (env : WhisperCallEnv) (audioPath : String) :
    Except PyExn String :=
  match recognize_speech_body env audioPath with
  | Except.ok s => Except.ok s
  | Except.error _ => Except.ok recognitionFailureSentinel

end WhisperEngine

/-- Effect outcomes of one `VoskEngine.recognize_speech` call: the format
metadata of the clip at the path, the pydub decode/export (runs only for
non-`.wav` paths), `wave.open`, and the frame loop plus
`FinalResult`/`json.loads` with the `"text"` field of the decoded dict
(`dict.get` with default, so absence does not raise). -/
structure VoskCallEnv where
  sourceClip : AudioClip
  decodeOutcome : Except PyExn Unit
  openOutcome : Except PyExn Unit
  jsonText : Except PyExn (Option String)

namespace VoskEngine

/-- `audio.set_channels(1)` and `audio.set_frame_rate(16000)` followed by
`export(..., format="wav")` (lines 132–135); a WAV export is uncompressed
PCM, `wave`'s comptype `"NONE"`. -/
def normalizeClip (c : AudioClip) : AudioClip :=
  { c with channels := 1, rate := 16000, comptype := "NONE" }

/-- The clip actually opened and fed to the recognizer: the source clip
itself for a `.wav` path, the normalized export otherwise (lines
130–136). -/
def fedClip (audioPath : String) (source : AudioClip) : AudioClip :=
  if isWavPath audioPath then source else normalizeClip source

/-- The requirements check of line 142 (mono, 16-bit, PCM), which only
logs a warning. -/
def formatWarning (c : AudioClip) : Bool :=
  !(c.channels == 1 && c.sampwidth == 2 && c.comptype == "NONE")

/-- The sample rate handed to `KaldiRecognizer` (line 145):
`wf.getframerate()` of the opened clip. -/
def recognizerRate (env : VoskCallEnv) (audioPath : String) : Nat :=
  (fedClip audioPath env.sourceClip).rate

/-- The `try` body of `VoskEngine.recognize_speech` (lines 128–159). -/
def recognize_speech_body (env : VoskCallEnv) (audioPath : String) :
    Except PyExn String :=
  match (if isWavPath audioPath then Except.ok () else env.decodeOutcome) with
  | Except.error e => Except.error e
  | Except.ok _ =>
    match env.openOutcome with
    | Except.error e => Except.error e
    | Except.ok _ =>
      match env.jsonText with
      | Except.error e => Except.error e
      | Except.ok t => Except.ok (PyStr.strip (t.getD ""))

/-- `VoskEngine.recognize_speech` (lines 118–162): the `try` body with
its `except Exception` handler returning the failure sentinel. -/
def recognize_speech (env : VoskCallEnv) (audioPath : String) :
    Except PyExn String :=
  match recognize_speech_body env audioPath with
  | Except.ok s => Except.ok s
  | Except.error _ => Except.ok recognitionFailureSentinel

end VoskEngine

end SpeechRecognitionEngine


namespace ProtocolGenerator

/-- Contents of a file written by `generate_pdf`: a paginated render of
the protocol text, or a plain-text file holding exactly a string. -/
inductive FileData where
  | pdfFile (source : String)
  | txtFile (content : String)
  deriving DecidableEq

/-- Effect outcomes of one `generate_pdf` call: existence of the two
project font files and of any system font file per style (lines 204–233),
the FPDF rendering including `pdf.output` (lines 244–291), and the two
plain-text writes — the fonts-missing fallback of line 239 and the
`except`-handler fallback of line 300. -/
structure PdfEnv where
  projRegular : Bool
  projBold : Bool
  sysRegular : Bool
  sysBold : Bool
  renderOutcome : Except PyExn Unit
  txtWriteFallbackOutcome : Except PyExn Unit
  txtWriteHandlerOutcome : Except PyExn Unit

/-- Lines 209–235: both project fonts present, or — after the system
search, which can only improve the two paths — an existing regular and an
existing bold font. -/
def fontsResolved (e : PdfEnv) : Bool :=
  if e.projRegular && e.projBold then true
  else (e.projRegular || e.sysRegular) && (e.projBold || e.sysBold)

/-- `output_path.replace('.pdf', '.txt')` (lines 238 and 299): substring
replacement over the whole path, not an extension swap. -/
def txt_path (outputPath : String) : String :=
  PyStr.replace outputPath ".pdf" ".txt"

/-- The `try` body of `generate_pdf` (lines 202–293): with fonts resolved,
render and return the destination; otherwise write the raw text to the
`.txt`-replaced path and return that.  The value also records the files
durably written, as path–content pairs. -/
def generate_pdf_body (env : PdfEnv) (protocolText outputPath : String) :
    Except PyExn (String × List (String × FileData)) :=
  if fontsResolved env then
    match env.renderOutcome with
    | Except.error e => Except.error e
    | Except.ok _ =>
      Except.ok (outputPath, [(outputPath, FileData.pdfFile protocolText)])
  else
    match env.txtWriteFallbackOutcome with
    | Except.error e => Except.error e
    | Except.ok _ =>
      Except.ok (txt_path outputPath,
        [(txt_path outputPath, FileData.txtFile protocolText)])

/-- `ProtocolGenerator.generate_pdf` (lines 190–306): the `try` body with
its `except` handler, which attempts the plain-text write once more and
returns `None` if that also fails.  Returns the reported path and the
files written. -/
def generate_pdf (env : PdfEnv) (protocolText outputPath : String) :
    Option String × List (String × FileData) :=
  match generate_pdf_body env protocolText outputPath with
  | Except.ok (p, files) => (some p, files)
  | Except.error _ =>
    match env.txtWriteHandlerOutcome with
    | Except.ok _ =>
      (some (txt_path outputPath),
       [(txt_path outputPath, FileData.txtFile protocolText)])
    | Except.error _ => (none, [])

/-- Effect outcomes of one `process_voice_transcription` call:
`os.makedirs` (line 321), the generator's post outcome, the clock reads,
the `strftime("%Y%m%d_%H%M%S")` stamp (line 327), and the renderer's
environment. -/
structure OrchEnv where
  makedirsOutcome : Except PyExn Unit
  post : PostOutcome
  nowDate : String
  nowFooter : String
  timestamp : String
  pdfEnv : PdfEnv

/-- `os.path.join` for the relative file names this code joins. -/
def joinPath (dir file : String) : String :=
  if dir = "" then file
  else if dir.data.getLast? = some '/' then dir ++ file
  else dir ++ "/" ++ file

/-- `ProtocolGenerator.process_voice_transcription` (lines 308–337).
Its `except` handler (line 337) executes `return None, protocol_text`;
on any path where the exception was raised before line 324 bound
`protocol_text`, that statement itself raises `UnboundLocalError`, which
leaves the function. -/
def process_voice_transcription (env : OrchEnv) (transcription outputDir : String) :
    Except PyExn (Option String × String) :=
  match env.makedirsOutcome with
  | Except.error _ => Except.error PyExn.unboundLocalError
  | Except.ok _ =>
    match generate_protocol_text env.post transcription env.nowDate env.nowFooter with
    | Except.error _ => Except.error PyExn.unboundLocalError
    | Except.ok protocolText =>
      let pdfPath := joinPath outputDir ("protocol_" ++ env.timestamp ++ ".pdf")
      match generate_pdf env.pdfEnv protocolText pdfPath with
      | (resultPath, _) => Except.ok (resultPath, protocolText)

end ProtocolGenerator

namespace ClaimData

/-- A transcription with exactly seven sentences whose stripped fragments
exceed ten characters. -/
def sevenSentences : String :=
  "Первый вопрос повестки. Второй вопрос повестки. Третий вопрос повестки. " ++
  "Четвертый вопрос повестки. Пятый вопрос повестки. Шестой вопрос повестки. " ++
  "Седьмой вопрос повестки."

/-- Modelled from the claim's words, for comparison with `txt_path`: the
destination with its final `.pdf` extension swapped for `.txt`, keeping
the base name (used only on `.pdf`-suffixed destinations). -/
def extensionSwap (p : String) : String :=
  String.mk (p.data.take (p.data.length - 4) ++ ['.', 't', 'x', 't'])

end ClaimData

/-! ### Helper lemmas -/

theorem numberFragments_length (k : Nat) (xs : List String) :
    (ProtocolGenerator.numberFragments k xs).length = xs.length := by
  induction xs generalizing k with
  | nil => rfl
  | cons x xs ih => simp [ProtocolGenerator.numberFragments, ih]

theorem numberFragments_getElem? (k : Nat) (xs : List String) (i : Nat) :
    (ProtocolGenerator.numberFragments k xs)[i]? =
      (xs[i]?).map (fun l => Nat.repr (k + i) ++ ". " ++ l ++ ".") := by
  induction xs generalizing k i with
  | nil => simp [ProtocolGenerator.numberFragments]
  | cons x xs ih =>
    cases i with
    | zero => simp [ProtocolGenerator.numberFragments]
    | succ n =>
      have hkn : k + 1 + n = k + (n + 1) := by omega
      simp [ProtocolGenerator.numberFragments, ih (k + 1) n, hkn]

/-! ### Claims -/

/-- C1: for every transcription (the empty string included) and every
outcome of the generative-service call, `generate_protocol_text` returns a
document string — no exception propagates to the caller — and on any
outcome other than an HTTP-200 response (non-200 status, timeout,
connection failure) the result is exactly the deterministic fallback
formatter's document, which is a total function of its inputs. -/
theorem generate_protocol_text_total_with_fallback
    (po : ProtocolGenerator.PostOutcome) (t nowDate nowFooter : String) :
    (∃ s, ProtocolGenerator.generate_protocol_text po t nowDate nowFooter = Except.ok s) ∧
    (ProtocolGenerator.isHttp200 po = false →
      ProtocolGenerator.generate_protocol_text po t nowDate nowFooter =
        Except.ok (ProtocolGenerator.basic_protocol_formatting t nowDate nowFooter)) := by
  cases po with
  | exn => exact ⟨⟨_, rfl⟩, fun _ => rfl⟩
  | resp status json =>
    constructor
    · by_cases h : (status == 200) = true
      · cases json with
        | error u =>
          exact ⟨ProtocolGenerator.basic_protocol_formatting t nowDate nowFooter,
            by simp [ProtocolGenerator.generate_protocol_text,
              ProtocolGenerator.generate_body, h]⟩
        | ok r =>
          exact ⟨PyStr.strip (r.getD ""),
            by simp [ProtocolGenerator.generate_protocol_text,
              ProtocolGenerator.generate_body, h]⟩
      · exact ⟨ProtocolGenerator.basic_protocol_formatting t nowDate nowFooter,
          by simp [ProtocolGenerator.generate_protocol_text,
            ProtocolGenerator.generate_body, h]⟩
    · intro h200
      have h : (status == 200) = false := by
        simpa [ProtocolGenerator.isHttp200] using h200
      simp [ProtocolGenerator.generate_protocol_text, ProtocolGenerator.generate_body, h]

/-- Witness for C1 at the connection-failure outcome and the empty
transcription. -/
theorem generate_protocol_text_total_with_fallback_witness :
    ProtocolGenerator.generate_protocol_text
        ProtocolGenerator.PostOutcome.exn "" "01.01.2024" "01.01.2024" =
      Except.ok (ProtocolGenerator.basic_protocol_formatting "" "01.01.2024" "01.01.2024") :=
  (generate_protocol_text_total_with_fallback
    ProtocolGenerator.PostOutcome.exn "" "01.01.2024" "01.01.2024").2 rfl

/-- C2: for both engine variants, `recognize_speech` never raises past its
boundary: for any input path and any outcome of the internal steps it
returns an `ok` value; on every internal failure that value is the one
fixed sentinel string shared by both engines; on successful recognition it
is the stripped recognized text (so recognized empty speech yields the
empty string); and the sentinel is distinguishable from the empty
string. -/
theorem recognize_speech_never_raises_fixed_sentinel
    (we : SpeechRecognitionEngine.WhisperCallEnv)
    (ve : SpeechRecognitionEngine.VoskCallEnv) (p q : String) :
    (∃ s, SpeechRecognitionEngine.WhisperEngine.recognize_speech we p = Except.ok s) ∧
    (∃ s, SpeechRecognitionEngine.VoskEngine.recognize_speech ve q = Except.ok s) ∧
    (∀ e, SpeechRecognitionEngine.WhisperEngine.recognize_speech_body we p = Except.error e →
      SpeechRecognitionEngine.WhisperEngine.recognize_speech we p =
        Except.ok SpeechRecognitionEngine.recognitionFailureSentinel) ∧
    (∀ e, SpeechRecognitionEngine.VoskEngine.recognize_speech_body ve q = Except.error e →
      SpeechRecognitionEngine.VoskEngine.recognize_speech ve q =
        Except.ok SpeechRecognitionEngine.recognitionFailureSentinel) ∧
    (∀ text, SpeechRecognitionEngine.WhisperEngine.recognize_speech
        { convertOutcome := Except.ok (), transcribeOutcome := Except.ok (some text) } p =
      Except.ok (PyStr.strip text)) ∧
    SpeechRecognitionEngine.recognitionFailureSentinel ≠ "" := by
  refine ⟨?_, ?_, ?_, ?_, ?_, by decide⟩
  · cases h : SpeechRecognitionEngine.WhisperEngine.recognize_speech_body we p with
    | ok s =>
      exact ⟨s, by simp [SpeechRecognitionEngine.WhisperEngine.recognize_speech, h]⟩
    | error e =>
      exact ⟨SpeechRecognitionEngine.recognitionFailureSentinel,
        by simp [SpeechRecognitionEngine.WhisperEngine.recognize_speech, h]⟩
  · cases h : SpeechRecognitionEngine.VoskEngine.recognize_speech_body ve q with
    | ok s =>
      exact ⟨s, by simp [SpeechRecognitionEngine.VoskEngine.recognize_speech, h]⟩
    | error e =>
      exact ⟨SpeechRecognitionEngine.recognitionFailureSentinel,
        by simp [SpeechRecognitionEngine.VoskEngine.recognize_speech, h]⟩
  · intro e he
    simp [SpeechRecognitionEngine.WhisperEngine.recognize_speech, he]
  · intro e he
    simp [SpeechRecognitionEngine.VoskEngine.recognize_speech, he]
  · intro text
    simp [SpeechRecognitionEngine.WhisperEngine.recognize_speech,
      SpeechRecognitionEngine.WhisperEngine.recognize_speech_body, ite_self]

/-- Witness for C2: a corrupt clip (the transcribe call raising) makes the
Whisper variant return the sentinel, and a failing `wave.open` makes the
Vosk variant return the sentinel. -/
theorem recognize_speech_never_raises_fixed_sentinel_witness :
    SpeechRecognitionEngine.WhisperEngine.recognize_speech
        { convertOutcome := Except.ok (), transcribeOutcome := Except.error PyExn.runtimeError }
        "voice.ogg" =
      Except.ok SpeechRecognitionEngine.recognitionFailureSentinel ∧
    SpeechRecognitionEngine.VoskEngine.recognize_speech
        { sourceClip := { channels := 1, rate := 16000, sampwidth := 2, comptype := "NONE" },
          decodeOutcome := Except.ok (), openOutcome := Except.error PyExn.osError,
          jsonText := Except.ok (some "") }
        "voice.ogg" =
      Except.ok SpeechRecognitionEngine.recognitionFailureSentinel :=
  ⟨(recognize_speech_never_raises_fixed_sentinel
      { convertOutcome := Except.ok (), transcribeOutcome := Except.error PyExn.runtimeError }
      { sourceClip := { channels := 1, rate := 16000, sampwidth := 2, comptype := "NONE" },
        decodeOutcome := Except.ok (), openOutcome := Except.error PyExn.osError,
        jsonText := Except.ok (some "") }
      "voice.ogg" "voice.ogg").2.2.1 PyExn.runtimeError rfl,
   (recognize_speech_never_raises_fixed_sentinel
      { convertOutcome := Except.ok (), transcribeOutcome := Except.error PyExn.runtimeError }
      { sourceClip := { channels := 1, rate := 16000, sampwidth := 2, comptype := "NONE" },
        decodeOutcome := Except.ok (), openOutcome := Except.error PyExn.osError,
        jsonText := Except.ok (some "") }
      "voice.ogg" "voice.ogg").2.2.2.1 PyExn.osError rfl⟩

/-- C3: evaluation of the orchestrator at a failing input, documenting the
code bug.  With `os.makedirs` raising (for example because `protocols`
exists as a regular file), the `except` handler's `return None,
protocol_text` references the still-unbound `protocol_text`, so an
`UnboundLocalError` escapes `process_voice_transcription` — contradicting
the claim that no exception escapes.  And on the caught-failure path where
`protocol_text` is bound (service unreachable, fonts absent, both text
writes failing), the returned text is the plain protocol text, carrying no
stage-and-cause error annotation. -/
theorem process_voice_transcription_bug_evaluation :
    ProtocolGenerator.process_voice_transcription
        { makedirsOutcome := Except.error PyExn.osError,
          post := ProtocolGenerator.PostOutcome.exn,
          nowDate := "01.01.2024", nowFooter := "01.01.2024",
          timestamp := "20240101_120000",
          pdfEnv := { projRegular := false, projBold := false,
                      sysRegular := false, sysBold := false,
                      renderOutcome := Except.ok (),
                      txtWriteFallbackOutcome := Except.ok (),
                      txtWriteHandlerOutcome := Except.ok () } }
        "Встреча прошла успешно" "protocols" =
      Except.error PyExn.unboundLocalError ∧
    ProtocolGenerator.process_voice_transcription
        { makedirsOutcome := Except.ok (),
          post := ProtocolGenerator.PostOutcome.exn,
          nowDate := "01.01.2024", nowFooter := "01.01.2024",
          timestamp := "20240101_120000",
          pdfEnv := { projRegular := false, projBold := false,
                      sysRegular := false, sysBold := false,
                      renderOutcome := Except.ok (),
                      txtWriteFallbackOutcome := Except.error PyExn.osError,
                      txtWriteHandlerOutcome := Except.error PyExn.osError } }
        "Встреча прошла успешно" "protocols" =
      Except.ok (none,
        ProtocolGenerator.basic_protocol_formatting
          "Встреча прошла успешно" "01.01.2024" "01.01.2024") :=
  ⟨rfl, rfl⟩

/-- C4 counterexample: a clip whose path already ends in `.wav` is handed
to the recognizer unchanged even when it is stereo at 44100 Hz — the
engine's declared precondition (one channel, 16000 Hz) is not
established, only a warning is logged. -/
theorem vosk_wav_extension_skips_normalization :
    SpeechRecognitionEngine.VoskEngine.fedClip "meeting.wav"
        { channels := 2, rate := 44100, sampwidth := 2, comptype := "NONE" } =
      { channels := 2, rate := 44100, sampwidth := 2, comptype := "NONE" } ∧
    ¬ ((SpeechRecognitionEngine.VoskEngine.fedClip "meeting.wav"
          { channels := 2, rate := 44100, sampwidth := 2, comptype := "NONE" }).channels = 1 ∧
       (SpeechRecognitionEngine.VoskEngine.fedClip "meeting.wav"
          { channels := 2, rate := 44100, sampwidth := 2, comptype := "NONE" }).rate = 16000) := by
  exact ⟨by decide, by decide⟩

/-- C4 amended: the chunked (Vosk) engine decides normalization by the
file extension, not by the clip's properties: when the path does not end
in `.wav` (case-insensitively) the audio fed to the recognizer has one
channel and a 16000 Hz rate; when it does end in `.wav` the clip is fed
unchanged (the mono/16-bit/PCM check of line 142 only logs a warning). -/
theorem vosk_normalization_gated_by_extension
    (p : String) (c : SpeechRecognitionEngine.AudioClip) :
    (SpeechRecognitionEngine.isWavPath p = false →
      (SpeechRecognitionEngine.VoskEngine.fedClip p c).channels = 1 ∧
      (SpeechRecognitionEngine.VoskEngine.fedClip p c).rate = 16000) ∧
    (SpeechRecognitionEngine.isWavPath p = true →
      SpeechRecognitionEngine.VoskEngine.fedClip p c = c) := by
  constructor
  · intro h
    simp [SpeechRecognitionEngine.VoskEngine.fedClip, h,
      SpeechRecognitionEngine.VoskEngine.normalizeClip]
  · intro h
    simp [SpeechRecognitionEngine.VoskEngine.fedClip, h]

/-- Witness for the amended C4 at an `.ogg` and a `.wav` path. -/
theorem vosk_normalization_gated_by_extension_witness :
    ((SpeechRecognitionEngine.VoskEngine.fedClip "audio.ogg"
        { channels := 2, rate := 48000, sampwidth := 2, comptype := "NONE" }).channels = 1 ∧
     (SpeechRecognitionEngine.VoskEngine.fedClip "audio.ogg"
        { channels := 2, rate := 48000, sampwidth := 2, comptype := "NONE" }).rate = 16000) ∧
    SpeechRecognitionEngine.VoskEngine.fedClip "sample.WAV"
        { channels := 2, rate := 48000, sampwidth := 2, comptype := "NONE" } =
      { channels := 2, rate := 48000, sampwidth := 2, comptype := "NONE" } :=
  ⟨(vosk_normalization_gated_by_extension "audio.ogg"
      { channels := 2, rate := 48000, sampwidth := 2, comptype := "NONE" }).1 (by decide),
   (vosk_normalization_gated_by_extension "sample.WAV"
      { channels := 2, rate := 48000, sampwidth := 2, comptype := "NONE" }).2 (by decide)⟩

/-- C5 counterexample: on HTTP 200 the returned document is *not* always
the service's text unmodified — surrounding whitespace is stripped. -/
theorem generate_200_not_verbatim :
    ProtocolGenerator.generate_protocol_text
        (ProtocolGenerator.PostOutcome.resp 200 (Except.ok (some " Протокол собрания ")))
        "т" "01.01.2024" "01.01.2024" =
      Except.ok "Протокол собрания" ∧
    ("Протокол собрания" : String) ≠ " Протокол собрания " := by
  exact ⟨rfl, by decide⟩

/-- C5 amended: on an HTTP-200 response, `generate_protocol_text` returns
the service's `"response"` field (the empty string when the field is
absent) with leading and trailing whitespace stripped. -/
theorem generate_200_returns_stripped_response
    (ro : Option String) (t nowDate nowFooter : String) :
    ProtocolGenerator.generate_protocol_text
        (ProtocolGenerator.PostOutcome.resp 200 (Except.ok ro)) t nowDate nowFooter =
      Except.ok (PyStr.strip (ro.getD "")) := rfl

/-- C6 counterexample: the JSON body sent to `/api/generate` has exactly
the keys `model`, `prompt`, `stream` — it carries no `options` object, so
no temperature or top_p decoding configuration is transmitted. -/
theorem generate_request_has_no_options :
    ((ProtocolGenerator.generate_request "http://localhost:11434" "llama3"
        "prompt text").body.map Prod.fst = ["model", "prompt", "stream"]) ∧
    ¬ ("options" ∈ (ProtocolGenerator.generate_request "http://localhost:11434" "llama3"
        "prompt text").body.map Prod.fst) := by
  exact ⟨rfl, by decide⟩

/-- C6 amended: every request to the generative service is a POST to
`/api/generate` with a 60-second timeout and the JSON body
`{model, prompt, stream:false}`; no `options` field (and hence no
temperature/top_p) is part of the payload. -/
theorem generate_request_shape (u m p : String) :
    (ProtocolGenerator.generate_request u m p).method = "POST" ∧
    (ProtocolGenerator.generate_request u m p).url = u ++ "/api/generate" ∧
    (ProtocolGenerator.generate_request u m p).timeoutSecs = 60 ∧
    (ProtocolGenerator.generate_request u m p).body =
      [("model", ProtocolGenerator.JsonVal.s m), ("prompt", ProtocolGenerator.JsonVal.s p),
       ("stream", ProtocolGenerator.JsonVal.b false)] ∧
    List.lookup "options" (ProtocolGenerator.generate_request u m p).body = none :=
  ⟨rfl, rfl, rfl, rfl, rfl⟩

/-- C7: the fallback's agenda is the first five of the stripped
`'.'`-separated fragments longer than ten characters, numbered `1.` to
`5.` in original order; with seven qualifying fragments exactly five
numbered lines result. -/
theorem questions_first_five_numbered (t : String) :
    (ProtocolGenerator.questions t).length =
      min 5 (ProtocolGenerator.extracted_lines t).length ∧
    (∀ i, i < 5 → (ProtocolGenerator.questions t)[i]? =
      ((ProtocolGenerator.extracted_lines t)[i]?).map
        (fun l => Nat.repr (i + 1) ++ ". " ++ l ++ ".")) ∧
    ((ProtocolGenerator.extracted_lines t).length = 7 →
      (ProtocolGenerator.questions t).length = 5) := by
  refine ⟨?_, ?_, ?_⟩
  · simp [ProtocolGenerator.questions, numberFragments_length, List.length_take]
  · intro i hi
    rw [ProtocolGenerator.questions, numberFragments_getElem?,
      List.getElem?_take_of_lt hi]
    simp [Nat.add_comm]
  · intro h7
    simp [ProtocolGenerator.questions, numberFragments_length, List.length_take, h7]

/-- Witness for C7 on a transcription with seven qualifying sentences. -/
theorem questions_first_five_numbered_witness :
    (ProtocolGenerator.questions ClaimData.sevenSentences).length = 5 ∧
    (ProtocolGenerator.questions ClaimData.sevenSentences)[1]? =
      ((ProtocolGenerator.extracted_lines ClaimData.sevenSentences)[1]?).map
        (fun l => Nat.repr (1 + 1) ++ ". " ++ l ++ ".") :=
  ⟨(questions_first_five_numbered ClaimData.sevenSentences).2.2 (by decide),
   (questions_first_five_numbered ClaimData.sevenSentences).2.1 1 (by decide)⟩

/-- C8: the fallback's date field is the leftmost match of the
day/month-name or `d.m.yy(yy)` regex when one occurs — so the transcription
"Встреча состоится 15 мая в офисе" yields "15 мая" — and the current date
otherwise, for every value of the current date. -/
theorem meeting_date_first_match_or_today (today : String) :
    ProtocolGenerator.meeting_date "Встреча состоится 15 мая в офисе" today = "15 мая" ∧
    ProtocolGenerator.meeting_date "Обсудили проект и разошлись" today = today ∧
    (∀ t m, PyRe.firstDateMatch t = some m →
      ProtocolGenerator.meeting_date t today = m) := by
  refine ⟨?_, ?_, ?_⟩
  · have h : PyRe.firstDateMatch "Встреча состоится 15 мая в офисе" = some "15 мая" := by
      decide
    simp [ProtocolGenerator.meeting_date, h]
  · have h : PyRe.firstDateMatch "Обсудили проект и разошлись" = none := by decide
    simp [ProtocolGenerator.meeting_date, h]
  · intro t m h
    simp [ProtocolGenerator.meeting_date, h]

/-- Witness for C8 at a numeric-date transcription. -/
theorem meeting_date_first_match_or_today_witness :
    ProtocolGenerator.meeting_date "итог 12.05.24 готов" "09.10.2026" = "12.05.24" :=
  (meeting_date_first_match_or_today "09.10.2026").2.2 "итог 12.05.24 готов" "12.05.24"
    (by decide)

/-- C9 counterexample: the degraded text path is computed by substring
replacement of every `.pdf` occurrence (`output_path.replace('.pdf',
'.txt')`), not by swapping the final extension: for the destination
`archive.pdf/protocol.pdf` the file is written to and reported at
`archive.txt/protocol.txt`, which differs from same-base-name
`archive.pdf/protocol.txt`. -/
theorem generate_pdf_txt_path_not_extension_swap :
    ProtocolGenerator.generate_pdf
        { projRegular := false, projBold := false, sysRegular := false, sysBold := false,
          renderOutcome := Except.ok (), txtWriteFallbackOutcome := Except.ok (),
          txtWriteHandlerOutcome := Except.ok () }
        "Текст протокола" "archive.pdf/protocol.pdf" =
      (some "archive.txt/protocol.txt",
       [("archive.txt/protocol.txt", ProtocolGenerator.FileData.txtFile "Текст протокола")]) ∧
    ClaimData.extensionSwap "archive.pdf/protocol.pdf" = "archive.pdf/protocol.txt" ∧
    ("archive.txt/protocol.txt" : String) ≠ "archive.pdf/protocol.txt" := by
  exact ⟨rfl, by decide, by decide⟩

/-- C9 amended: when the font resource is found at neither the project nor
any system path, or when rendering throws, `generate_pdf` writes the raw
structured-document text verbatim to `output_path` with every occurrence
of `.pdf` replaced by `.txt` — which is the base-name-preserving extension
swap exactly when `.pdf` occurs only as the final extension — and returns
that path. -/
theorem generate_pdf_degrades_to_verbatim_text (t outPath : String)
    (ro tw2 tw1 : Except PyExn Unit) (sr sb : Bool) (e : PyExn) :
    ProtocolGenerator.generate_pdf
        { projRegular := false, projBold := false, sysRegular := false, sysBold := false,
          renderOutcome := ro, txtWriteFallbackOutcome := Except.ok (),
          txtWriteHandlerOutcome := tw2 } t outPath =
      (some (ProtocolGenerator.txt_path outPath),
       [(ProtocolGenerator.txt_path outPath, ProtocolGenerator.FileData.txtFile t)]) ∧
    ProtocolGenerator.generate_pdf
        { projRegular := true, projBold := true, sysRegular := sr, sysBold := sb,
          renderOutcome := Except.error e, txtWriteFallbackOutcome := tw1,
          txtWriteHandlerOutcome := Except.ok () } t outPath =
      (some (ProtocolGenerator.txt_path outPath),
       [(ProtocolGenerator.txt_path outPath, ProtocolGenerator.FileData.txtFile t)]) :=
  ⟨rfl, rfl⟩

/-- C10: the fallback document contains the input transcription verbatim
as the body of its discussion section, followed by the fixed three-item
decisions list and the timestamp footer — the embedded transcription is
neither truncated nor altered. -/
theorem basic_formatting_embeds_transcription (t nowDate nowFooter : String) :
    ∃ lead, ProtocolGenerator.basic_protocol_formatting t nowDate nowFooter =
      lead ++ ("\n\n## Содержание обсуждения:\n\n" ++ t ++
        "\n\n## Решения и задачи:\n\n" ++ ProtocolGenerator.decisionsBlock ++
        "\n\nДата составления протокола: " ++ nowFooter ++ "\n") := by
  refine ⟨"# Протокол встречи от " ++ ProtocolGenerator.meeting_date t nowDate ++
    "\n\n## Тема: " ++ ProtocolGenerator.topic t ++
    "\n\n## Повестка совещания:\n\n" ++
    String.intercalate "\n" (ProtocolGenerator.questions t), ?_⟩
  simp [ProtocolGenerator.basic_protocol_formatting, String.append_assoc]
